import Mathlib

/-!
Verification development for the `marvin` message-dispatch gateway.

Shallow embedding of the dispatch core: the circuit breaker store
(`src/lobby/circuit_breaker.py`), the rate-limit health tracker
(`src/lobby/rate_limiter.py`), the escalation detector
(`src/lobby/escalation.py`), the routing decision engine
(`src/lobby/router.py`), the response cache
(`src/cache/cache.py`), and the gateway entry point
(`src/lobby/gateway.py`).

Python strings are modelled as Lean `String`; `str.lower`, `str.strip`,
the `in` substring test and `", ".join` are re-implemented structurally
over `List Char` so that the kernel can evaluate them.  Machine floats
(confidences, latencies, percentages) are modelled as `ℚ`; epoch times
as `Int`.  Mutable dictionaries become total functions with explicit
defaults (mirroring the lazy-default `_get` accessors of the source) or
association lists.  Outbound HTTP calls are oracle parameters: an
`Option String` is the body a backend returned (`none` = request
failure), a `Bool` flag is a liveness probe result.
-/

set_option maxRecDepth 1000000
set_option maxHeartbeats 1000000

/-! ## Python string primitives -/

namespace Pystr

/-- `str.lower` (ASCII case folding, as exercised by the code). -/
def lower (s : String) : String := String.mk (s.data.map Char.toLower)

/-- Whitespace characters removed by Python `str.strip()`. -/
def isPySpace (c : Char) : Bool :=
  c = ' ' || c = '\t' || c = '\n' || c = '\r' || c = '\x0b' || c = '\x0c'

/-- `str.strip()`: drop leading and trailing whitespace. -/
def strip (s : String) : String :=
  String.mk (((s.data.dropWhile isPySpace).reverse.dropWhile isPySpace).reverse)

/-- `str.rstrip(chars)`: drop trailing characters from the given set. -/
def rstripChars (s : String) (cs : List Char) : String :=
  String.mk ((s.data.reverse.dropWhile (fun c => cs.contains c)).reverse)

/-- Python `needle in haystack` on strings (contiguous substring test). -/
def substr (needle hay : String) : Bool := decide (needle.data <:+: hay.data)

/-- `sep.join(items)` (Python string join). -/
def joinSep (sep : String) : List String → String
  | [] => ""
  | [x] => x
  | x :: y :: xs => x ++ sep ++ joinSep sep (y :: xs)

/-- `str.split()` with no argument: split on whitespace runs, dropping empties. -/
def pySplit (s : String) : List String :=
  go s.data []
where
  go : List Char → List Char → List String
    | [], acc => if acc.isEmpty then [] else [String.mk acc.reverse]
    | c :: cs, acc =>
      if isPySpace c then
        if acc.isEmpty then go cs [] else String.mk acc.reverse :: go cs []
      else go cs (c :: acc)

end Pystr

/-! ## Circuit breaker store (`src/lobby/circuit_breaker.py`) -/

namespace CircuitBreaker

/-- `BreakerState` dataclass; the defaults are the dataclass field defaults,
`reset()` restores exactly them. -/
structure BreakerState where
  failures : Nat := 0
  tripped_until : Int := 0
  last_error : Option String := none
  deriving DecidableEq, Repr

/-- `CircuitBreakerStore._store`: the dict with `_get`'s lazy default is a
total function whose default value is the fresh `BreakerState`. -/
def BreakerStore : Type := String → BreakerState

/-- A freshly constructed `CircuitBreakerStore()`. -/
def emptyStore : BreakerStore := fun _ => {}

/-- `can_attempt(key)`: `time.time() >= state.tripped_until`, with the current
time passed explicitly. -/
def can_attempt (store : BreakerStore) (now : Int) (key : String) : Bool :=
  now ≥ (store key).tripped_until

/-- `record_success(key)`: `state.reset()` restores all dataclass defaults. -/
def record_success (store : BreakerStore) (key : String) : BreakerStore :=
  fun k => if k = key then {} else store k

/-- `record_failure(key, ttl_sec, max_failures, error)`. -/
def record_failure (store : BreakerStore) (now : Int) (key : String)
    (ttl_sec : Int) (max_failures : Nat) (error : Option String) : BreakerStore :=
  fun k =>
    if k = key then
      let st := store k
      let st := { st with failures := st.failures + 1, last_error := error }
      if st.failures ≥ max_failures then
        { st with tripped_until := now + ttl_sec, failures := 0 }
      else st
    else store k

/-- `n` consecutive `record_failure` calls on the same key. -/
def record_failures_n (store : BreakerStore) (now : Int) (key : String)
    (ttl_sec : Int) (max_failures : Nat) (error : Option String) : Nat → BreakerStore
  | 0 => store
  | n + 1 =>
    record_failure (record_failures_n store now key ttl_sec max_failures error n)
      now key ttl_sec max_failures error

end CircuitBreaker

/-! ## Rate-limit health tracker (`src/lobby/rate_limiter.py`) -/

namespace RateLimiter

/-- The rate-limit headers of one backend response.  `num name` is the
integer value of a numeric header (`none` when the header is absent, in
which case the source's `headers.get(name, -1)` yields `-1`);
`resetSecs name` is the value `_parse_reset_duration` produced for a
reset header (the source parses `"2m59.56s"`-style durations, ISO
timestamps and plain seconds, defaulting to 60 — that string parse is
kept opaque here since no claim depends on it). -/
structure HeaderMap where
  num : String → Option Int
  resetSecs : String → Int

/-- `headers.get(name, -1)` followed by `int(...)`. -/
def headerInt (h : HeaderMap) (name : String) : Int := (h.num name).getD (-1)

/-- The normalized health dict `parse_headers` builds (its non-"unknown"
shape).  `round(pct, 1)` display rounding is omitted: the stored
percentages keep full precision, which the health classification (made
from the unrounded values in the source as well) never sees. -/
structure ParsedHealth where
  remaining_requests : Int
  limit_requests : Int
  remaining_tokens : Int
  limit_tokens : Int
  request_pct : ℚ
  token_pct : ℚ
  reset_seconds : Int
  health : String
  bottleneck : String
  updated_at : Int
  deriving Repr

/-- `remaining / limit * 100 if limit > 0 else 100`. -/
def ratio_pct (remaining limit : Int) : ℚ :=
  if 0 < limit then (remaining : ℚ) / (limit : ℚ) * 100 else 100

/-- `parse_headers(headers, provider)`; `none` is the `{"health": "unknown"}`
dict returned for unrecognized providers. -/
def parse_headers (h : HeaderMap) (provider : String) (now : Int) : Option ParsedHealth :=
  let fields? : Option (Int × Int × Int × Int × Int × Int) :=
    if provider = "groq" || provider = "openai" || provider = "moonshot" then
      some (headerInt h "x-ratelimit-remaining-requests",
            headerInt h "x-ratelimit-limit-requests",
            headerInt h "x-ratelimit-remaining-tokens",
            headerInt h "x-ratelimit-limit-tokens",
            h.resetSecs "x-ratelimit-reset-requests",
            h.resetSecs "x-ratelimit-reset-tokens")
    else if provider = "anthropic" then
      some (headerInt h "anthropic-ratelimit-requests-remaining",
            headerInt h "anthropic-ratelimit-requests-limit",
            headerInt h "anthropic-ratelimit-tokens-remaining",
            headerInt h "anthropic-ratelimit-tokens-limit",
            h.resetSecs "anthropic-ratelimit-requests-reset",
            h.resetSecs "anthropic-ratelimit-tokens-reset")
    else none
  match fields? with
  | none => none
  | some (remaining_req, limit_req, remaining_tok, limit_tok, reset_req, reset_tok) =>
    let req_pct := ratio_pct remaining_req limit_req
    let tok_pct := ratio_pct remaining_tok limit_tok
    let lowest := min req_pct tok_pct
    let health :=
      if 20 < lowest then "green"
      else if 5 < lowest then "yellow"
      else "red"
    some {
      remaining_requests := remaining_req,
      limit_requests := limit_req,
      remaining_tokens := remaining_tok,
      limit_tokens := limit_tok,
      request_pct := req_pct,
      token_pct := tok_pct,
      reset_seconds := max reset_req reset_tok,
      health := health,
      bottleneck := if req_pct < tok_pct then "requests" else "tokens",
      updated_at := now }

/-- One entry of the in-memory `_providers` dict (after `update` or
`update_on_429` filled in `provider`, `model` and `reset_at`). -/
structure ProviderInfo where
  remaining_requests : Int
  limit_requests : Int
  remaining_tokens : Int
  limit_tokens : Int
  request_pct : ℚ
  token_pct : ℚ
  reset_seconds : Int
  health : String
  bottleneck : String
  updated_at : Int
  reset_at : Int
  provider : String
  model : String
  deriving Repr

/-- `_providers`: provider key → health dict (`none` = no record yet).
The SQLite snapshot log is write-only history and is not modelled. -/
def TrackerState : Type := String → Option ProviderInfo

/-- A freshly constructed tracker: `self._providers = {}`. -/
def emptyTracker : TrackerState := fun _ => none

/-- The `_key` lookup table. -/
def key_map : List ((String × String) × String) :=
  [(("openai", "gpt-4o-mini"), "openai_gpt4o_mini"),
   (("openai", "gpt-4o"), "openai_gpt4o"),
   (("ollama", "llama3.2"), "ollama_llama32"),
   (("groq", "llama-3.1-8b-instant"), "groq_llama_8b"),
   (("groq", "llama-3.3-70b-versatile"), "groq_llama_70b"),
   (("anthropic", "haiku"), "haiku"),
   (("anthropic", "opus"), "claude_opus"),
   (("moonshot", "kimi-2.5"), "kimi_2_5")]

/-- `_key(provider, model)`: table lookup with `f"{provider}_{model}"` fallback. -/
def tracker_key (provider model : String) : String :=
  (key_map.lookup (provider, model)).getD (provider ++ "_" ++ model)

/-- `update(provider, model, headers)`: the success-path health update. -/
def update (st : TrackerState) (provider model : String) (h : HeaderMap)
    (now : Int) : TrackerState :=
  match parse_headers h provider now with
  | none => st
  | some p =>
    let key := tracker_key provider model
    fun k =>
      if k = key then
        some { remaining_requests := p.remaining_requests,
               limit_requests := p.limit_requests,
               remaining_tokens := p.remaining_tokens,
               limit_tokens := p.limit_tokens,
               request_pct := p.request_pct,
               token_pct := p.token_pct,
               reset_seconds := p.reset_seconds,
               health := p.health,
               bottleneck := p.bottleneck,
               updated_at := p.updated_at,
               reset_at := now + p.reset_seconds,
               provider := provider,
               model := model }
      else st k

/-- `update_on_429(provider, model, retry_after)`: force-red on a 429. -/
def update_on_429 (st : TrackerState) (provider model : String)
    (retry_after : Int) (now : Int) : TrackerState :=
  let key := tracker_key provider model
  fun k =>
    if k = key then
      some { remaining_requests := 0,
             limit_requests := 0,
             remaining_tokens := 0,
             limit_tokens := 0,
             request_pct := 0,
             token_pct := 0,
             reset_seconds := retry_after,
             health := "red",
             bottleneck := "rate_limited_429",
             updated_at := now,
             reset_at := now + retry_after,
             provider := provider,
             model := model }
    else st k

/-- `get_health(provider, model)`: current health string, with the
RED→YELLOW auto-recovery side effect on the stored record (the guard
`info.get("reset_at")` is Python truthiness, i.e. `reset_at ≠ 0`). -/
def get_health (st : TrackerState) (provider model : String) (now : Int) :
    String × TrackerState :=
  let key := tracker_key provider model
  match st key with
  | none => ("green", st)
  | some info =>
    if info.health = "red" && info.reset_at ≠ 0 && now ≥ info.reset_at then
      let info' := { info with health := "yellow", updated_at := now }
      ("yellow", fun k => if k = key then some info' else st k)
    else (info.health, st)

/-- `is_available(provider, model)`: `health in ("green", "yellow")`. -/
def is_available (st : TrackerState) (provider model : String) (now : Int) : Bool :=
  let health := (get_health st provider model now).1
  health = "green" || health = "yellow"

/-- The health classification exactly as the specification words it:
the minimum of the request and token percentages, green above 20%,
yellow above 5%, red otherwise.  Stated separately from `parse_headers`
so the code's stored health can be compared against it. -/
def spec_min_classification (request_pct token_pct : ℚ) : String :=
  if 20 < min request_pct token_pct then "green"
  else if 5 < min request_pct token_pct then "yellow"
  else "red"

end RateLimiter

/-! ## Escalation detection (`src/lobby/escalation.py`) -/

namespace Escalation

open Pystr

def CODE_MARKERS : List String :=
  ["```", "traceback", "exception", "docker", "npm", "pip", "railway",
   "systemd", "python", "def "]

def WORKFLOW_TERMS : List String :=
  ["bug", "fix", "review", "refactor", "pr", "pull request", "test failing",
   "deploy", "ci", "pipeline"]

def ARCHITECTURE_TERMS : List String :=
  ["system design", "module", "interface", "api contract", "schema", "routing"]

def SECURITY_TERMS : List String :=
  ["key", "token", "leak", "exposed", "cve", "auth"]

def ENGINEERING_MARKERS : List String :=
  CODE_MARKERS ++ WORKFLOW_TERMS ++ ARCHITECTURE_TERMS ++ SECURITY_TERMS

def LONG_REQUEST_THRESHOLD : Nat := 400

structure EscalationResult where
  triggered : Bool
  reasons : List String
  deriving Repr, DecidableEq

/-- `contains_any(text, needles)`: the needles occurring in `text.lower()`. -/
def contains_any (text : String) (needles : List String) : List String :=
  let lowered := lower text
  needles.filter (fun needle => substr needle lowered)

/-- `detect_escalation(text)`. -/
def detect_escalation (text : String) : EscalationResult :=
  let lowered := lower text
  let code_hits := contains_any lowered CODE_MARKERS
  let workflow_hits := contains_any lowered WORKFLOW_TERMS
  let arch_hits := contains_any lowered ARCHITECTURE_TERMS
  let security_hits := contains_any lowered SECURITY_TERMS
  let reasons :=
    (if code_hits.isEmpty then []
     else ["code markers: " ++ joinSep ", " code_hits]) ++
    (if workflow_hits.isEmpty then []
     else ["workflow: " ++ joinSep ", " workflow_hits]) ++
    (if arch_hits.isEmpty then []
     else ["architecture: " ++ joinSep ", " arch_hits]) ++
    (if security_hits.isEmpty then []
     else ["security: " ++ joinSep ", " security_hits]) ++
    (if text.length ≥ LONG_REQUEST_THRESHOLD then
       let long_hits := contains_any lowered ENGINEERING_MARKERS
       if long_hits.isEmpty then [] else ["long+technical request"]
     else [])
  { triggered := !reasons.isEmpty, reasons := reasons }

/-- `derive_intent(text, keyword)` (the audit-labeling intent deriver). -/
def derive_intent (text : String) (keyword : Option String) : String :=
  let from_keyword : Option String :=
    match keyword with
    | some k =>
      if k ≠ "" then
        if k = "status" then some "status"
        else if k = "help" || k = "commands" || k = "what can you do" then
          some "howto"
        else if k = "health" || k = "version" || k = "router status" ||
            k = "budget" then
          some "status"
        else none
      else none
    | none => none
  match from_keyword with
  | some r => r
  | none =>
    let lowered := lower text
    if substr "roadmap" lowered then "unknown"
    else if !(contains_any lowered SECURITY_TERMS).isEmpty then "security"
    else if !(contains_any lowered ARCHITECTURE_TERMS).isEmpty then "architecture"
    else if !(contains_any lowered CODE_MARKERS).isEmpty then "code_debug"
    else if !(contains_any lowered WORKFLOW_TERMS).isEmpty then "code_review"
    else if substr "how" lowered || substr "instructions" lowered then "howto"
    else if text.length < 80 then "trivial"
    else "unknown"

end Escalation

/-! ## Routing decision engine (`src/lobby/router.py`, with the keyword
registry of `src/lobby/keywords.py`, the health snapshot of
`src/lobby/health.py`, the config of `src/lobby/config.py` and the
decision record of `src/lobby/observability.py`) -/

namespace Router

open Pystr Escalation CircuitBreaker

/-- `KeywordEntry` (frozen dataclass of `keywords.py`). -/
structure KeywordEntry where
  command : String
  response : String
  allows_args : Bool
  version : Int
  deriving Repr, DecidableEq

/-- `KeywordRegistry._registry`: the exact-match command dict, loaded from an
external JSON table, so modelled as an arbitrary map. -/
def KeywordRegistry : Type := String → Option KeywordEntry

/-- `KeywordRegistry.match(text)`: exact lookup of the stripped text. -/
def kw_match (registry : KeywordRegistry) (text : String) : Option KeywordEntry :=
  registry (strip text)

/-- `HealthSnapshot` (`health.py`); `checked_at` as an epoch second. -/
structure HealthSnapshot where
  checked_at : Int
  ollama_ok : Bool
  openai_ok : Bool
  ollama_error : Option String := none
  openai_error : Option String := none
  deriving Repr

/-- `CircuitBreakerConfig` (`config.py`). -/
structure CircuitBreakerConfig where
  fails : Int
  ttl_sec : Int
  deriving Repr

/-- `LobbyConfig` (`config.py`); the keyword-commands path stays a string. -/
structure LobbyConfig where
  lobby_mode : String
  ollama_base_url : String
  openai_model : String
  openai_max_daily_usd : ℚ
  keyword_commands_path : String
  cb_ollama : CircuitBreakerConfig
  cb_openai : CircuitBreakerConfig
  health_cache_ttl_sec : Int
  deriving Repr

/-- `DecisionLogRecord` (`observability.py`).  The two timestamp strings are
kept as the epoch seconds they are rendered from (ISO formatting is pure
display); `circuit_breakers` is flattened into its two keys. -/
structure DecisionLogRecord where
  request_id : String
  user_id : String
  layer : String
  intent : String
  confidence : ℚ
  reason : String
  keyword_hit : Option String
  ollama_ok : Bool
  openai_ok : Bool
  latency_ms_total : ℚ
  estimated_cost_usd : ℚ
  received_at : Int
  health_checked_at : Int
  latency_ms_per_layer : Option (List (String × ℚ))
  brownout_active : Bool
  circuit_breakers_ollama : String
  circuit_breakers_openai : String
  deriving Repr

/-- `RequestEnvelope` (`router.py`). -/
structure RequestEnvelope where
  request_id : String
  user_id : String
  text : String
  priority : String := "normal"
  deriving Repr

/-- `RoutingDecision`; the `cost_guard` dict is flattened into its two keys. -/
structure RoutingDecision where
  record : DecisionLogRecord
  cost_guard_allowed : Bool
  cost_guard_why : String
  escalation : EscalationResult
  deriving Repr

/-- `LobbyRouter._brownout_active()`. -/
def brownout_active (config : LobbyConfig) : Bool := config.lobby_mode = "brownout"

/-- `LobbyRouter._layer_available(layer, snapshot)`. -/
def layer_available (breakers : BreakerStore) (now : Int) (layer : String)
    (snapshot : HealthSnapshot) : Bool :=
  if layer = "ollama" then snapshot.ollama_ok && can_attempt breakers now "ollama"
  else if layer = "openai" then snapshot.openai_ok && can_attempt breakers now "openai"
  else true

/-- `LobbyRouter._cost_for_layer(layer)` (`0.01` placeholder for openai). -/
def cost_for_layer (layer : String) : ℚ := if layer = "openai" then 1 / 100 else 0

/-- `LobbyRouter.route(request, snapshot, latency_ms, latency_per_layer)`,
with the wall clock passed explicitly.  The sequence of reassignments of
`layer` / `reason` / `openai_guard_*` in the source is expressed as one
pure computation of the final values of those variables. -/
def route (config : LobbyConfig) (registry : KeywordRegistry)
    (breakers : BreakerStore) (now : Int) (request : RequestEnvelope)
    (snapshot : HealthSnapshot) (latency_ms : ℚ)
    (latency_per_layer : Option (List (String × ℚ))) : RoutingDecision :=
  let text := strip request.text
  let keyword_entry := kw_match registry text
  let intent := derive_intent text (keyword_entry.map (fun e => e.command))
  let escalation := detect_escalation text
  let brownout := brownout_active config
  let priority_override := request.priority = "high"
  -- final (layer, reason, keyword_hit, openai_guard_allowed, openai_guard_reason)
  let outcome : String × String × Option String × Bool × String :=
    match keyword_entry with
    | some entry =>
      ("keyword", "exact keyword command", some entry.command, false, "keyword handled")
    | none =>
      let ollama_available := layer_available breakers now "ollama" snapshot
      let openai_available := layer_available breakers now "openai" snapshot
      let openai_allowed := escalation.triggered
      let openai_reason :=
        if escalation.reasons.isEmpty then "no triggers"
        else joinSep ", " escalation.reasons
      let adjusted : Bool × String :=
        if brownout && !priority_override then
          if !escalation.triggered then (false, "brownout denies non-trigger request")
          else (openai_allowed, openai_reason)
        else if priority_override then (true, "priority override")
        else (openai_allowed, openai_reason)
      let openai_allowed := adjusted.1
      let openai_reason := adjusted.2
      if ollama_available then
        if openai_allowed && openai_available && escalation.triggered then
          ("openai", openai_reason, none, openai_allowed, openai_reason)
        else
          ("ollama", "handled by ollama", none, openai_allowed, openai_reason)
      else
        if openai_available && (openai_allowed || priority_override) then
          ("openai", "ollama unavailable, openai escalation", none, true,
           "ollama unavailable, openai escalation")
        else
          ("fallback", "models unavailable", none, false, "models unavailable")
  let layer := outcome.1
  let reason := outcome.2.1
  let keyword_hit := outcome.2.2.1
  let guard_allowed := outcome.2.2.2.1
  let guard_reason := outcome.2.2.2.2
  -- `snapshot.checked_at or time.time()`: Python truthiness on the float
  let health_checked_at := if snapshot.checked_at ≠ 0 then snapshot.checked_at else now
  let record : DecisionLogRecord := {
    request_id := request.request_id,
    user_id := request.user_id,
    layer := layer,
    intent := intent,
    confidence := if layer ≠ "fallback" then 9 / 10 else 1 / 2,
    reason := reason,
    keyword_hit := keyword_hit,
    ollama_ok := snapshot.ollama_ok,
    openai_ok := snapshot.openai_ok,
    latency_ms_total := latency_ms,
    estimated_cost_usd := cost_for_layer layer,
    received_at := now,
    health_checked_at := health_checked_at,
    latency_ms_per_layer := latency_per_layer,
    brownout_active := brownout,
    circuit_breakers_ollama :=
      if can_attempt breakers now "ollama" then "ok" else "tripped",
    circuit_breakers_openai :=
      if can_attempt breakers now "openai" then "ok" else "tripped" }
  { record := record, cost_guard_allowed := guard_allowed,
    cost_guard_why := guard_reason, escalation := escalation }

end Router

/-! ## Response cache (`src/cache/cache.py`) -/

namespace Cache

/-- The per-intent TTL table `_init_ttl_map` builds (`none` = uncacheable). -/
def ttl_map : List (String × Option Int) :=
  [("status_check", some 60), ("health_check", some 60), ("uptime", some 60),
   ("how_to", some 3600), ("reference", some 3600), ("command", some 3600),
   ("trivial", some 86400), ("greeting", some 86400),
   ("code_review", none), ("debugging", none), ("error_fix", none),
   ("feature_work", none), ("task", none),
   ("unknown", some 3600)]

/-- `self.ttl_map.get(intent, 3600)`. -/
def ttl_lookup (intent : String) : Option Int :=
  match ttl_map.lookup intent with
  | some v => v
  | none => some 3600

/-- `f"{intent}:{project or 'global'}:{state_sig}"` — the string fed to the
digest.  `project or 'global'` is Python truthiness: both `None` and the
empty string become `"global"`. -/
def cache_key_data (intent : String) (project : Option String)
    (state_sig : String) : String :=
  let proj := match project with
    | some p => if p = "" then "global" else p
    | none => "global"
  intent ++ ":" ++ proj ++ ":" ++ state_sig

/-- `_make_cache_key`: `hashlib.sha256(key_data.encode()).hexdigest()[:12]`.
The SHA-256 hex digest is an external library primitive, taken as a
parameter; the 12-character truncation is kept. -/
def make_cache_key (digest : String → String) (intent : String)
    (project : Option String) (state_sig : String) : String :=
  (digest (cache_key_data intent project state_sig)).take 12

/-- A stand-in for the external `hashlib.sha256(...).hexdigest()` used to
instantiate concrete scenarios.  Every property proved below about
`make_cache_key` either holds for all digest functions or, where stated
at this concrete one, depends only on the two serialized inputs being
equal — so it holds verbatim for the real SHA-256. -/
def exampleDigest : String → String := fun s => s

/-- One `cache_entries` row. -/
structure CacheEntry where
  intent : String
  project : Option String
  response : String
  state_signature : String
  created_at : Int
  expires_at : Int
  hit_count : Nat
  last_hit_at : Option Int
  tokens_saved : Nat
  tier : String
  metadata_ttl : Option Int
  metadata_tier : String
  deriving Repr

/-- The cache layer state: the `cache_entries` table (keyed by the UNIQUE
`cache_key` column) plus the process-lifetime `stats` counters.  The
`cache_metrics` / `invalidation_log` tables are write-only logs and are
not modelled. -/
structure CacheState where
  entries : List (String × CacheEntry)
  hits : Nat
  misses : Nat
  tokens_saved : Nat
  writes : Nat
  evictions : Nat
  deriving Repr

/-- A freshly initialized cache layer. -/
def emptyCache : CacheState :=
  { entries := [], hits := 0, misses := 0, tokens_saved := 0, writes := 0,
    evictions := 0 }

/-- The `SELECT ... WHERE cache_key = ? AND expires_at > ? LIMIT 1` read. -/
def live_lookup (entries : List (String × CacheEntry)) (key : String)
    (now : Int) : Option CacheEntry :=
  (entries.find? (fun kv => kv.1 = key && now < kv.2.expires_at)).map (fun kv => kv.2)

/-- `INSERT OR REPLACE` on the UNIQUE `cache_key` column. -/
def insert_entry (entries : List (String × CacheEntry)) (key : String)
    (e : CacheEntry) : List (String × CacheEntry) :=
  (key, e) :: entries.filter (fun kv => kv.1 ≠ key)

/-- What `get` hands back on a hit. -/
structure CacheHit where
  value : String
  metadata_ttl : Option Int
  metadata_tier : String
  hit_count : Nat
  age_seconds : Int
  tokens_saved : Nat
  deriving Repr

/-- `CacheLayer.get(intent, project, state_sig)`: the returned payload (or
`none` on a miss) together with the updated state (hit-count bump and
stats counters).  JSON (de)serialization of the payload is the identity
on the stored string. -/
def get (digest : String → String) (st : CacheState) (intent : String)
    (project : Option String) (state_sig : String) (now : Int) :
    Option CacheHit × CacheState :=
  let key := make_cache_key digest intent project state_sig
  match live_lookup st.entries key now with
  | some e =>
    let entries := st.entries.map (fun kv =>
      if kv.1 = key then
        (kv.1, { kv.2 with hit_count := kv.2.hit_count + 1, last_hit_at := some now })
      else kv)
    (some { value := e.response,
            metadata_ttl := e.metadata_ttl,
            metadata_tier := e.metadata_tier,
            hit_count := e.hit_count,
            age_seconds := now - e.created_at,
            tokens_saved := e.tokens_saved },
     { st with entries := entries,
               hits := st.hits + 1,
               tokens_saved := st.tokens_saved + e.tokens_saved })
  | none =>
    (none, { st with misses := st.misses + 1 })

/-- `CacheLayer.put(intent, response, project, state_sig, tokens_saved, tier)`:
the returned cache key (`none` = not cacheable / no write) together with
the updated state. -/
def put (digest : String → String) (st : CacheState) (intent : String)
    (response : String) (project : Option String) (state_sig : String)
    (tokens_saved : Nat) (tier : String) (now : Int) :
    Option String × CacheState :=
  let key := make_cache_key digest intent project state_sig
  match ttl_lookup intent with
  | none => (none, st)
  | some ttl =>
    let e : CacheEntry := {
      intent := intent,
      project := project,
      response := response,
      state_signature := state_sig,
      created_at := now,
      expires_at := now + ttl,
      hit_count := 0,
      last_hit_at := none,
      tokens_saved := tokens_saved,
      tier := tier,
      metadata_ttl := some ttl,
      metadata_tier := tier }
    (some key,
     { st with entries := insert_entry st.entries key e,
               writes := st.writes + 1,
               tokens_saved := st.tokens_saved + tokens_saved })

end Cache

/-! ## Intent classifier (`src/lobby/classifier.py`) and gateway
(`src/lobby/gateway.py`).

The HTTP calls of the classifier cascade and of the response generators
are external; each is an oracle parameter carrying the body the backend
answered with (`none` = the call failed: non-200 status, timeout or
exception, all of which the source maps to `None`).  The tracker
side-effects those calls perform (header bookkeeping) do not influence
any return value proved about here and are left out of the state
threading. -/

namespace Gateway

open Pystr RateLimiter

/-- `IntentType` enum. -/
inductive IntentType where
  | status_check
  | how_to
  | code_review
  | debugging
  | feature_work
  | trivial
  | unknown
  deriving DecidableEq, Repr

/-- `IntentType.value`. -/
def intentValue : IntentType → String
  | .status_check => "status_check"
  | .how_to => "how_to"
  | .code_review => "code_review"
  | .debugging => "debugging"
  | .feature_work => "feature_work"
  | .trivial => "trivial"
  | .unknown => "unknown"

/-- `IntentType(s)` as a total function: `none` models the `ValueError` the
enum constructor raises on an out-of-vocabulary string (which also makes
the `intent_str not in valid_intents` checks explicit). -/
def strToIntent (s : String) : Option IntentType :=
  if s = "status_check" then some .status_check
  else if s = "how_to" then some .how_to
  else if s = "code_review" then some .code_review
  else if s = "debugging" then some .debugging
  else if s = "feature_work" then some .feature_work
  else if s = "trivial" then some .trivial
  else if s = "unknown" then some .unknown
  else none

/-- `OLLAMA_INTENTS`. -/
def OLLAMA_INTENTS : List IntentType :=
  [.status_check, .how_to, .trivial, .unknown]

/-- `QUALITY_INTENTS`. -/
def QUALITY_INTENTS : List IntentType :=
  [.code_review, .debugging, .feature_work]

/-- `Classification` dataclass.  The `ttl` field is `Option Int` because the
source stores `None` there for uncacheable intents. -/
structure Classification where
  intent : String
  confidence : ℚ
  method : String
  cacheable : Bool
  ttl : Option Int
  reason : String
  deriving Repr

/-- The static per-intent metadata of `self.intents`. -/
def intent_keywords : IntentType → List String
  | .status_check =>
    ["status", "running", "health", "uptime", "working", "how is", "is the",
     "health check", "alive"]
  | .how_to =>
    ["how do i", "how to", "what\x27s the command", "how can i", "guide",
     "tutorial", "documentation", "help with"]
  | .code_review =>
    ["review", "check this", "look at", "pull request", "pr", "code review",
     "audit", "feedback on code"]
  | .debugging =>
    ["error", "broken", "fix", "debug", "why", "not working", "issue", "bug",
     "failed", "crash", "exception"]
  | .feature_work =>
    ["build", "add", "create", "implement", "develop", "new feature", "task",
     "epic", "story"]
  | .trivial =>
    ["thanks", "thank you", "ok", "cool", "nice", "good job", "got it",
     "understood", "acknowledged"]
  | .unknown => []

def intent_cacheable : IntentType → Bool
  | .status_check => true
  | .how_to => true
  | .trivial => true
  | _ => false

def intent_ttl : IntentType → Option Int
  | .status_check => some 60
  | .how_to => some 3600
  | .trivial => some 86400
  | _ => none

/-- The iteration order of the `self.intents` dict (Python insertion order). -/
def intent_order : List IntentType :=
  [.status_check, .how_to, .code_review, .debugging, .feature_work, .trivial,
   .unknown]

/-- `_classify_by_keywords(message)`. -/
def classify_by_keywords (message : String) : Option Classification :=
  let msg_lower := lower message
  (intent_order.filterMap (fun intent =>
    if intent = .unknown then none
    else
      match (intent_keywords intent).find? (fun kw => substr kw msg_lower) with
      | some kw =>
        some { intent := intentValue intent,
               confidence := 95 / 100,
               method := "keyword",
               cacheable := intent_cacheable intent,
               ttl := intent_ttl intent,
               reason := "Matched keyword: \x27" ++ kw ++ "\x27" }
      | none => none)).head?

/-- The outside world a `LobbyClassifier` interacts with: liveness of the
local endpoint, configured API keys and model names, and the body each
classification call would answer with. -/
structure ClassifierEnv where
  ollama_up : Bool
  ollama_model : String
  ollama_answer : Option String
  openai_key : Bool
  openai_model : String
  openai_answer : Option String
  kimi_key : Bool
  kimi_model : String
  kimi_answer : Option String

/-- `_classify_by_ollama(message)`: liveness gate, then the closed-vocabulary
check on `content.strip().lower()`. -/
def classify_by_ollama (env : ClassifierEnv) : Option Classification :=
  if !env.ollama_up then none
  else
    match env.ollama_answer with
    | none => none
    | some content =>
      let intent_str := lower (strip content)
      match strToIntent intent_str with
      | none => none
      | some intent =>
        some { intent := intentValue intent,
               confidence := 80 / 100,
               method := "ollama",
               cacheable := intent_cacheable intent,
               ttl := intent_ttl intent,
               reason := "Ollama " ++ env.ollama_model ++ " (local)" }

/-- `_classify_by_openai` / `_classify_by_kimi` shared parse
(`_parse_classification_response` after `_call_openai_compatible`). -/
def classify_by_remote (keySet : Bool) (answer : Option String)
    (provider model : String) : Option Classification :=
  if !keySet then none
  else
    match answer with
    | none => none
    | some content =>
      let intent_str := lower (strip content)
      match strToIntent intent_str with
      | none => none
      | some intent =>
        some { intent := intentValue intent,
               confidence := if provider = "openai" then 90 / 100 else 85 / 100,
               method := if provider = "openai" then "openai" else "kimi",
               cacheable := intent_cacheable intent,
               ttl := intent_ttl intent,
               reason := provider ++ " " ++ model }

/-- `_classify_by_quality_provider(message)`: OpenAI when its tracker health
allows, then Kimi (provider string `"moonshot"`) under the same check. -/
def classify_by_quality (env : ClassifierEnv) (tracker : TrackerState)
    (now : Int) : Option Classification :=
  let openai_try :=
    if is_available tracker "openai" env.openai_model now then
      classify_by_remote env.openai_key env.openai_answer "openai" env.openai_model
    else none
  match openai_try with
  | some r => some r
  | none =>
    if is_available tracker "moonshot" env.kimi_model now then
      classify_by_remote env.kimi_key env.kimi_answer "moonshot" env.kimi_model
    else none

/-- `_fallback_classification(message)`. -/
def fallback_classification (message : String) : Classification :=
  let msg_lower := lower message
  if (pySplit message).length < 5 then
    { intent := intentValue .trivial, confidence := 1 / 2, method := "fallback",
      cacheable := true, ttl := some 86400, reason := "Short message (fallback)" }
  else if ["error", "fix", "broken"].any (fun w => substr w msg_lower) then
    { intent := intentValue .debugging, confidence := 6 / 10, method := "fallback",
      cacheable := false, ttl := none, reason := "Contains error keywords (fallback)" }
  else
    { intent := intentValue .unknown, confidence := 0, method := "fallback",
      cacheable := false, ttl := none, reason := "Could not classify (fallback)" }

/-- `LobbyClassifier.classify(message)`: the four-phase cascade. -/
def classify (env : ClassifierEnv) (tracker : TrackerState) (now : Int)
    (message : String) : Classification :=
  match classify_by_keywords message with
  | some c => c
  | none =>
    match classify_by_ollama env with
    | some ollama_result =>
      -- `IntentType(ollama_result.intent)` — valid by construction here
      if (strToIntent ollama_result.intent).any (fun i => i ∈ QUALITY_INTENTS) then
        match classify_by_quality env tracker now with
        | some quality_result => quality_result
        | none => ollama_result
      else ollama_result
    | none =>
      match classify_by_quality env tracker now with
      | some quality_result => quality_result
      | none => fallback_classification message

/-- `TRIVIAL_RESPONSES` in dict insertion order. -/
def TRIVIAL_RESPONSES : List (String × String) :=
  [("thanks", "You\x27re welcome!"),
   ("thank you", "You\x27re welcome!"),
   ("ok", "Got it."),
   ("cool", "Right on."),
   ("nice", "Thanks!"),
   ("good job", "Appreciate it!"),
   ("got it", "Great."),
   ("understood", "Perfect."),
   ("acknowledged", "Noted."),
   ("hi", "Hey! What can I help you with?"),
   ("hello", "Hey there! What do you need?"),
   ("hey", "What\x27s up? How can I help?")]

/-- `MarvinGateway._handle_trivial(message)`. -/
def handle_trivial (message : String) : String :=
  let msg_lower := rstripChars (strip (lower message)) ['!', '?', '.', ',']
  match TRIVIAL_RESPONSES.find? (fun kv => substr kv.1 msg_lower) with
  | some kv => kv.2
  | none => "Got it."

/-- `if response:` — Python truthiness on an optional string. -/
def truthy : Option String → Option String
  | some s => if s = "" then none else some s
  | none => none

/-- `MarvinGateway._generate_ollama(messages)`: liveness gate, then the
stripped body of a successful call (`none` = failure path). -/
def generate_ollama (ollama_up : Bool) (answer : Option String) : Option String :=
  if !ollama_up then none
  else answer.map strip

/-- `MarvinGateway._call_chat(...)`: the stripped body on a 200, otherwise
`None` (429 / other errors / timeout / exception). -/
def call_chat (answer : Option String) : Option String := answer.map strip

/-- Everything external that one `handle_message` call can observe: the
classifier environment, the rate-limit tracker, the clock, the bodies of
the up-to-three generation calls, and a flag for the defensive
`except Exception` envelope (an unexpected fault anywhere in the body). -/
structure GatewayEnv where
  cenv : ClassifierEnv
  tracker : TrackerState
  now : Int
  ollama_gen1 : Option String
  quality_openai : Option String
  quality_kimi : Option String
  ollama_gen2 : Option String
  unexpected_error : Bool

/-- `MarvinGateway._generate_quality(messages)`: OpenAI then Kimi, each
gated on a configured key and `tracker.is_available`. -/
def generate_quality (env : GatewayEnv) : Option String :=
  let openai_try :=
    if env.cenv.openai_key &&
        is_available env.tracker "openai" env.cenv.openai_model env.now then
      call_chat env.quality_openai
    else none
  match truthy openai_try with
  | some r => some r
  | none =>
    if env.cenv.kimi_key &&
        is_available env.tracker "moonshot" env.cenv.kimi_model env.now then
      truthy (call_chat env.quality_kimi)
    else none

/-- The canned messages of the two terminal paths. -/
def RATE_LIMITED_MESSAGE : String :=
  "All providers are currently rate limited. " ++
  "I\x27ll be back online shortly — try again in a minute."

def ERROR_MESSAGE : String :=
  "Something went wrong on my end. Try again in a moment."

/-- `MarvinGateway.handle_message(user_id, message)`.  The conversation
history only feeds the generators (whose outputs are already oracles),
so its bookkeeping does not appear in the returned string. -/
def handle_message (user_id message : String) (env : GatewayEnv) : String :=
  if env.unexpected_error then ERROR_MESSAGE
  else
    let classification := classify env.cenv env.tracker env.now message
    match strToIntent classification.intent with
    | none => ERROR_MESSAGE  -- `IntentType(...)` raised, caught by the envelope
    | some intent =>
      if intent = .trivial then handle_trivial message
      else
        let step4 :=
          if intent ∈ OLLAMA_INTENTS then
            truthy (generate_ollama env.cenv.ollama_up env.ollama_gen1)
          else none
        match step4 with
        | some response => response
        | none =>
          match truthy (generate_quality env) with
          | some response => response
          | none =>
            match truthy (generate_ollama env.cenv.ollama_up env.ollama_gen2) with
            | some response => response
            | none => RATE_LIMITED_MESSAGE

end Gateway

/-! ## Concrete scenario fixtures used by the closed instantiations below -/

/-- A registry with no commands loaded. -/
def empty_registry : Router.KeywordRegistry := fun _ => none

/-- The default configuration of `config/lobby.defaults.yml` as
`LobbyConfig.from_dict` materializes it, in normal mode. -/
def sample_config : Router.LobbyConfig :=
  { lobby_mode := "normal",
    ollama_base_url := "http://ollama:11434",
    openai_model := "gpt-4.1-mini",
    openai_max_daily_usd := 50,
    keyword_commands_path := "config/keywords.json",
    cb_ollama := { fails := 3, ttl_sec := 60 },
    cb_openai := { fails := 2, ttl_sec := 30 },
    health_cache_ttl_sec := 8 }

/-- A high-priority request whose text matches no keyword command and no
escalation marker. -/
def sample_request_high : Router.RequestEnvelope :=
  { request_id := "req-1", user_id := "user-1", text := "hello there",
    priority := "high" }

/-- The same text at normal priority. -/
def sample_request_normal : Router.RequestEnvelope :=
  { request_id := "req-2", user_id := "user-1", text := "hello there" }

/-- Ollama down, OpenAI healthy. -/
def snap_ollama_down : Router.HealthSnapshot :=
  { checked_at := 1000, ollama_ok := false, openai_ok := true }

/-- Both model layers down. -/
def snap_all_down : Router.HealthSnapshot :=
  { checked_at := 1000, ollama_ok := false, openai_ok := false }

/-- A successful-response header map: 100/1000 requests remaining (10%),
500/1000 tokens remaining (50%) — min 10%, i.e. yellow. -/
def sample_headers : RateLimiter.HeaderMap :=
  { num := fun name =>
      if name = "x-ratelimit-remaining-requests" then some 100
      else if name = "x-ratelimit-limit-requests" then some 1000
      else if name = "x-ratelimit-remaining-tokens" then some 500
      else if name = "x-ratelimit-limit-tokens" then some 1000
      else none,
    resetSecs := fun _ => 60 }

/-! # Theorems -/

/-! ## String-helper lemmas -/

namespace Pystr

theorem substr_eq_true_iff (needle hay : String) :
    substr needle hay = true ↔ needle.data <:+: hay.data := by
  simp [substr]

theorem joinSep_mem_infix (sep : String) (l : List String) (x : String)
    (hx : x ∈ l) : x.data <:+: (joinSep sep l).data := by
  induction l with
  | nil => cases hx
  | cons y ys ih =>
    cases hx with
    | head =>
      cases ys with
      | nil => exact List.infix_refl _
      | cons z zs =>
        have hpre : x.data <+: (x ++ sep ++ joinSep sep (z :: zs)).data := by
          refine ⟨sep.data ++ (joinSep sep (z :: zs)).data, ?_⟩
          simp [String.data_append]
        exact hpre.isInfix
    | tail _ hmem =>
      have hxs := ih hmem
      cases ys with
      | nil => cases hmem
      | cons z zs =>
        have hsuffix : (joinSep sep (z :: zs)).data <:+
            (y ++ sep ++ joinSep sep (z :: zs)).data := by
          refine ⟨y.data ++ sep.data, ?_⟩
          simp [String.data_append]
        exact hxs.trans hsuffix.isInfix

theorem substr_append_right (needle pre post : String)
    (h : needle.data <:+: post.data) : substr needle (pre ++ post) = true := by
  rw [substr_eq_true_iff]
  have hsuffix : post.data <:+ (pre ++ post).data := by
    refine ⟨pre.data, ?_⟩
    simp [String.data_append]
  exact h.trans hsuffix.isInfix

end Pystr

/-! ## Circuit breaker lemmas and claim C4 -/

namespace CircuitBreaker

theorem record_failures_n_lt (store : BreakerStore) (now : Int) (key : String)
    (ttl_sec : Int) (max_failures : Nat) (error : Option String)
    (hfresh : (store key).failures = 0) :
    ∀ n, n < max_failures →
      (record_failures_n store now key ttl_sec max_failures error n) key =
        { failures := n, tripped_until := (store key).tripped_until,
          last_error := if n = 0 then (store key).last_error else error } := by
  intro n
  induction n with
  | zero =>
    intro _
    simp only [record_failures_n, if_pos rfl]
    cases h : store key with
    | mk f t e => simp_all
  | succ m ih =>
    intro hlt
    have hm : m < max_failures := Nat.lt_of_succ_lt hlt
    have hprev := ih hm
    simp only [record_failures_n, record_failure, if_pos rfl, hprev]
    have hnotrip : ¬ (m + 1 ≥ max_failures) := by omega
    simp [hnotrip]

end CircuitBreaker

/-- C4: from a key with no failure streak, `maxFailures` consecutive
`record_failure` calls leave the failure counter re-armed at zero with
`tripped_until = now + cooldown`; `can_attempt` is false strictly before
that deadline and true from it on; `record_success` resets the key's
state to the dataclass defaults and leaves every other key unchanged. -/
theorem circuit_breaker_trip_rearm_and_reset
    (store : CircuitBreaker.BreakerStore) (key other : String) (now t : Int)
    (ttl_sec : Int) (max_failures : Nat) (error : Option String)
    (hfresh : (store key).failures = 0) (hmax : 1 ≤ max_failures)
    (httl : 0 < ttl_sec) :
    ((CircuitBreaker.record_failures_n store now key ttl_sec max_failures error
        max_failures) key =
      { failures := 0, tripped_until := now + ttl_sec, last_error := error }
     ∧ (t < now + ttl_sec →
        CircuitBreaker.can_attempt
          (CircuitBreaker.record_failures_n store now key ttl_sec max_failures
            error max_failures) t key = false)
     ∧ (now + ttl_sec ≤ t →
        CircuitBreaker.can_attempt
          (CircuitBreaker.record_failures_n store now key ttl_sec max_failures
            error max_failures) t key = true))
    ∧ ((CircuitBreaker.record_success store key) key = {}
       ∧ (other ≠ key →
          (CircuitBreaker.record_success store key) other = store other)) := by
  obtain ⟨m, rfl⟩ : ∃ m, max_failures = m + 1 :=
    ⟨max_failures - 1, by omega⟩
  have hprev := CircuitBreaker.record_failures_n_lt store now key ttl_sec
    (m + 1) error hfresh m (by omega)
  have htrip : (CircuitBreaker.record_failures_n store now key ttl_sec (m + 1)
      error (m + 1)) key =
      { failures := 0, tripped_until := now + ttl_sec, last_error := error } := by
    simp only [CircuitBreaker.record_failures_n, CircuitBreaker.record_failure,
      if_pos rfl, hprev]
    simp
  refine ⟨⟨htrip, ?_, ?_⟩, ?_, ?_⟩
  · intro hlt
    simp [CircuitBreaker.can_attempt, htrip]
    omega
  · intro hge
    simp [CircuitBreaker.can_attempt, htrip]
    omega
  · simp [CircuitBreaker.record_success]
  · intro hne
    simp [CircuitBreaker.record_success, hne]

/-- Closed instantiation of `circuit_breaker_trip_rearm_and_reset`:
three failures with a 30-second cooldown at time 100, probed at times
110 and 130. -/
theorem circuit_breaker_trip_rearm_and_reset_witness :
    CircuitBreaker.can_attempt
      (CircuitBreaker.record_failures_n CircuitBreaker.emptyStore 100 "ollama"
        30 3 (some "boom") 3) 110 "ollama" = false
    ∧ CircuitBreaker.can_attempt
        (CircuitBreaker.record_failures_n CircuitBreaker.emptyStore 100 "ollama"
          30 3 (some "boom") 3) 130 "ollama" = true
    ∧ (CircuitBreaker.record_success CircuitBreaker.emptyStore "ollama")
        "ollama" = {}
    ∧ (CircuitBreaker.record_success CircuitBreaker.emptyStore "ollama")
        "openai" = CircuitBreaker.emptyStore "openai" := by
  refine ⟨?_, ?_, ?_, ?_⟩
  · exact (circuit_breaker_trip_rearm_and_reset CircuitBreaker.emptyStore
      "ollama" "openai" 100 110 30 3 (some "boom") rfl (by decide)
      (by decide)).1.2.1 (by decide)
  · exact (circuit_breaker_trip_rearm_and_reset CircuitBreaker.emptyStore
      "ollama" "openai" 100 130 30 3 (some "boom") rfl (by decide)
      (by decide)).1.2.2 (by decide)
  · exact (circuit_breaker_trip_rearm_and_reset CircuitBreaker.emptyStore
      "ollama" "openai" 100 130 30 3 (some "boom") rfl (by decide)
      (by decide)).2.1
  · exact (circuit_breaker_trip_rearm_and_reset CircuitBreaker.emptyStore
      "ollama" "openai" 100 130 30 3 (some "boom") rfl (by decide)
      (by decide)).2.2 (by decide)

/-! ## Rate-limit tracker: claims C5, C6, C10 -/

/-- C5: for a stored red health record (all red records written by
`update` / `update_on_429` carry a nonzero reset deadline), every read
strictly before the deadline returns red and changes nothing; a read at
or after the deadline returns yellow — never green — without any new
observation, rewrites the stored record to yellow, and makes
`is_available` true. -/
theorem rate_limiter_red_recovers_to_yellow
    (st : RateLimiter.TrackerState) (provider model : String) (now : Int)
    (info : RateLimiter.ProviderInfo)
    (hrec : st (RateLimiter.tracker_key provider model) = some info)
    (hred : info.health = "red") (hra : info.reset_at ≠ 0) :
    (now < info.reset_at →
       (RateLimiter.get_health st provider model now).1 = "red"
       ∧ (RateLimiter.get_health st provider model now).2 = st)
    ∧ (info.reset_at ≤ now →
       (RateLimiter.get_health st provider model now).1 = "yellow"
       ∧ RateLimiter.is_available st provider model now = true
       ∧ (RateLimiter.get_health st provider model now).2
           (RateLimiter.tracker_key provider model) =
         some { info with health := "yellow", updated_at := now })
    ∧ (RateLimiter.get_health st provider model now).1 ≠ "green" := by
  refine ⟨?_, ?_, ?_⟩
  · intro hlt
    have hcond : ¬ (now ≥ info.reset_at) := by omega
    simp [RateLimiter.get_health, hrec, hred, hra, hcond]
  · intro hge
    have hcond : now ≥ info.reset_at := by omega
    constructor
    · simp [RateLimiter.get_health, hrec, hred, hra, hcond]
    constructor
    · simp [RateLimiter.is_available, RateLimiter.get_health, hrec, hred, hra,
        hcond]
    · simp [RateLimiter.get_health, hrec, hred, hra, hcond]
  · by_cases hcond : now ≥ info.reset_at
    · simp [RateLimiter.get_health, hrec, hred, hra, hcond]
    · simp [RateLimiter.get_health, hrec, hred, hra, hcond]

/-- Closed instantiation of `rate_limiter_red_recovers_to_yellow`: a 429
at time 1000 with `retry_after = 60` is red at 1050 and yellow (and
available) at 1060. -/
theorem rate_limiter_red_recovers_to_yellow_witness :
    (RateLimiter.get_health
      (RateLimiter.update_on_429 RateLimiter.emptyTracker "openai"
        "gpt-4o-mini" 60 1000) "openai" "gpt-4o-mini" 1050).1 = "red"
    ∧ (RateLimiter.get_health
        (RateLimiter.update_on_429 RateLimiter.emptyTracker "openai"
          "gpt-4o-mini" 60 1000) "openai" "gpt-4o-mini" 1060).1 = "yellow"
    ∧ RateLimiter.is_available
        (RateLimiter.update_on_429 RateLimiter.emptyTracker "openai"
          "gpt-4o-mini" 60 1000) "openai" "gpt-4o-mini" 1060 = true := by
  refine ⟨?_, ?_, ?_⟩
  · exact ((rate_limiter_red_recovers_to_yellow
      (RateLimiter.update_on_429 RateLimiter.emptyTracker "openai"
        "gpt-4o-mini" 60 1000) "openai" "gpt-4o-mini" 1050
      { remaining_requests := 0, limit_requests := 0, remaining_tokens := 0,
        limit_tokens := 0, request_pct := 0, token_pct := 0,
        reset_seconds := 60, health := "red", bottleneck := "rate_limited_429",
        updated_at := 1000, reset_at := 1060, provider := "openai",
        model := "gpt-4o-mini" } rfl rfl (by decide)).1 (by decide)).1
  · exact ((rate_limiter_red_recovers_to_yellow
      (RateLimiter.update_on_429 RateLimiter.emptyTracker "openai"
        "gpt-4o-mini" 60 1000) "openai" "gpt-4o-mini" 1060
      { remaining_requests := 0, limit_requests := 0, remaining_tokens := 0,
        limit_tokens := 0, request_pct := 0, token_pct := 0,
        reset_seconds := 60, health := "red", bottleneck := "rate_limited_429",
        updated_at := 1000, reset_at := 1060, provider := "openai",
        model := "gpt-4o-mini" } rfl rfl (by decide)).2.1 (by decide)).1
  · exact ((rate_limiter_red_recovers_to_yellow
      (RateLimiter.update_on_429 RateLimiter.emptyTracker "openai"
        "gpt-4o-mini" 60 1000) "openai" "gpt-4o-mini" 1060
      { remaining_requests := 0, limit_requests := 0, remaining_tokens := 0,
        limit_tokens := 0, request_pct := 0, token_pct := 0,
        reset_seconds := 60, health := "red", bottleneck := "rate_limited_429",
        updated_at := 1000, reset_at := 1060, provider := "openai",
        model := "gpt-4o-mini" } rfl rfl (by decide)).2.1 (by decide)).2.1

/-- C6: for every recognized provider and header map, `parse_headers`
computes the remaining/limit request and token percentages from that
provider's header names (100 standing in when a positive limit is
absent), classifies their minimum by the >20% / >5% thresholds exactly
as the specification words them (`spec_min_classification`), and
`update` stores precisely that classification as the provider's health. -/
theorem rate_limiter_update_stores_spec_classification
    (st : RateLimiter.TrackerState) (provider model : String)
    (h : RateLimiter.HeaderMap) (now : Int)
    (hp : provider = "groq" ∨ provider = "openai" ∨ provider = "moonshot"
      ∨ provider = "anthropic") :
    ∃ parsed : RateLimiter.ParsedHealth,
      RateLimiter.parse_headers h provider now = some parsed
      ∧ parsed.request_pct =
          RateLimiter.ratio_pct parsed.remaining_requests parsed.limit_requests
      ∧ parsed.token_pct =
          RateLimiter.ratio_pct parsed.remaining_tokens parsed.limit_tokens
      ∧ parsed.health =
          RateLimiter.spec_min_classification parsed.request_pct parsed.token_pct
      ∧ ((provider = "groq" ∨ provider = "openai" ∨ provider = "moonshot") →
         parsed.remaining_requests =
             RateLimiter.headerInt h "x-ratelimit-remaining-requests"
         ∧ parsed.limit_requests =
             RateLimiter.headerInt h "x-ratelimit-limit-requests"
         ∧ parsed.remaining_tokens =
             RateLimiter.headerInt h "x-ratelimit-remaining-tokens"
         ∧ parsed.limit_tokens =
             RateLimiter.headerInt h "x-ratelimit-limit-tokens")
      ∧ (provider = "anthropic" →
         parsed.remaining_requests =
             RateLimiter.headerInt h "anthropic-ratelimit-requests-remaining"
         ∧ parsed.limit_requests =
             RateLimiter.headerInt h "anthropic-ratelimit-requests-limit"
         ∧ parsed.remaining_tokens =
             RateLimiter.headerInt h "anthropic-ratelimit-tokens-remaining"
         ∧ parsed.limit_tokens =
             RateLimiter.headerInt h "anthropic-ratelimit-tokens-limit")
      ∧ ((RateLimiter.update st provider model h now)
           (RateLimiter.tracker_key provider model)).map
            RateLimiter.ProviderInfo.health = some parsed.health := by
  rcases hp with hp | hp | hp | hp <;> subst hp <;>
    refine ⟨_, rfl, rfl, rfl, ?_, ?_, ?_, ?_⟩ <;>
    simp [RateLimiter.parse_headers, RateLimiter.update,
      RateLimiter.spec_min_classification]

/-- Closed instantiation of `rate_limiter_update_stores_spec_classification`
at `sample_headers` (10% requests, 50% tokens): the stored health is the
yellow the claim's thresholds demand. -/
theorem rate_limiter_update_stores_spec_classification_witness :
    ∃ parsed : RateLimiter.ParsedHealth,
      RateLimiter.parse_headers sample_headers "groq" 1000 = some parsed
      ∧ parsed.health =
          RateLimiter.spec_min_classification parsed.request_pct parsed.token_pct
      ∧ ((RateLimiter.update RateLimiter.emptyTracker "groq"
            "llama-3.1-8b-instant" sample_headers 1000)
           (RateLimiter.tracker_key "groq" "llama-3.1-8b-instant")).map
            RateLimiter.ProviderInfo.health = some "yellow" := by
  obtain ⟨parsed, h1, _, _, h4, _, _, h7⟩ :=
    rate_limiter_update_stores_spec_classification RateLimiter.emptyTracker
      "groq" "llama-3.1-8b-instant" sample_headers 1000 (Or.inl rfl)
  refine ⟨parsed, h1, h4, ?_⟩
  have hhealth : parsed.health = "yellow" := by
    have := h1
    simp [RateLimiter.parse_headers, RateLimiter.headerInt, sample_headers,
      RateLimiter.ratio_pct] at this
    rw [← this]
    norm_num [RateLimiter.ratio_pct]
  rw [h7, hhealth]

/-- C10: a success-path `update` for a provider outside
{groq, openai, moonshot, anthropic} is a complete no-op — the provider
map is unchanged and no record is created — and, the pair having no
record, `get_health` still answers the optimistic default green (and the
provider counts as available) both before and after the attempted
update. -/
theorem rate_limiter_unknown_provider_update_noop
    (st : RateLimiter.TrackerState) (provider model : String)
    (h : RateLimiter.HeaderMap) (now : Int)
    (hp : provider ≠ "groq" ∧ provider ≠ "openai" ∧ provider ≠ "moonshot"
      ∧ provider ≠ "anthropic")
    (hrec : st (RateLimiter.tracker_key provider model) = none) :
    RateLimiter.update st provider model h now = st
    ∧ (RateLimiter.update st provider model h now)
        (RateLimiter.tracker_key provider model) = none
    ∧ (RateLimiter.get_health st provider model now).1 = "green"
    ∧ (RateLimiter.get_health st provider model now).2 = st
    ∧ RateLimiter.is_available st provider model now = true
    ∧ (RateLimiter.get_health (RateLimiter.update st provider model h now)
        provider model now).1 = "green" := by
  obtain ⟨h1, h2, h3, h4⟩ := hp
  have hparse : RateLimiter.parse_headers h provider now = none := by
    simp [RateLimiter.parse_headers, h1, h2, h3, h4]
  have hupd : RateLimiter.update st provider model h now = st := by
    simp [RateLimiter.update, hparse]
  refine ⟨hupd, ?_, ?_, ?_, ?_, ?_⟩
  · rw [hupd, hrec]
  · simp [RateLimiter.get_health, hrec]
  · simp [RateLimiter.get_health, hrec]
  · simp [RateLimiter.is_available, RateLimiter.get_health, hrec]
  · rw [hupd]
    simp [RateLimiter.get_health, hrec]

/-- Closed instantiation of `rate_limiter_unknown_provider_update_noop`
for provider "mistral". -/
theorem rate_limiter_unknown_provider_update_noop_witness :
    RateLimiter.update RateLimiter.emptyTracker "mistral" "large"
      sample_headers 1000 = RateLimiter.emptyTracker
    ∧ (RateLimiter.get_health
        (RateLimiter.update RateLimiter.emptyTracker "mistral" "large"
          sample_headers 1000) "mistral" "large" 1000).1 = "green"
    ∧ RateLimiter.is_available RateLimiter.emptyTracker "mistral" "large"
        1000 = true := by
  have h := rate_limiter_unknown_provider_update_noop RateLimiter.emptyTracker
    "mistral" "large" sample_headers 1000
    ⟨by decide, by decide, by decide, by decide⟩ rfl
  exact ⟨h.1, h.2.2.2.2.2, h.2.2.2.2.1⟩

/-! ## Escalation detection: claim C8 -/

namespace Escalation

theorem contains_any_engineering (t : String) :
    contains_any t ENGINEERING_MARKERS =
      contains_any t CODE_MARKERS ++ contains_any t WORKFLOW_TERMS ++
      contains_any t ARCHITECTURE_TERMS ++ contains_any t SECURITY_TERMS := by
  simp [contains_any, ENGINEERING_MARKERS, List.filter_append]

theorem detect_escalation_reasons_nil_iff (text : String) :
    (detect_escalation text).reasons = [] ↔
      (contains_any (Pystr.lower text) CODE_MARKERS = []
       ∧ contains_any (Pystr.lower text) WORKFLOW_TERMS = []
       ∧ contains_any (Pystr.lower text) ARCHITECTURE_TERMS = []
       ∧ contains_any (Pystr.lower text) SECURITY_TERMS = []) := by
  by_cases hc : contains_any (Pystr.lower text) CODE_MARKERS = [] <;>
  by_cases hw : contains_any (Pystr.lower text) WORKFLOW_TERMS = [] <;>
  by_cases ha : contains_any (Pystr.lower text) ARCHITECTURE_TERMS = [] <;>
  by_cases hs : contains_any (Pystr.lower text) SECURITY_TERMS = [] <;>
    simp [detect_escalation, contains_any_engineering, hc, hw, ha, hs]

end Escalation

/-- C8 (amended): the escalation signal fires exactly when the text hits
one of the four marker sets; the length threshold alone never triggers
it (a text at or over the threshold only contributes the extra
"long+technical request" reason when a marker also hit); and every
matched term occurs inside one of the recorded reasons. -/
theorem detect_escalation_marker_iff (text : String) :
    ((Escalation.detect_escalation text).triggered = true ↔
      ¬(Escalation.contains_any (Pystr.lower text) Escalation.CODE_MARKERS = []
        ∧ Escalation.contains_any (Pystr.lower text) Escalation.WORKFLOW_TERMS = []
        ∧ Escalation.contains_any (Pystr.lower text)
            Escalation.ARCHITECTURE_TERMS = []
        ∧ Escalation.contains_any (Pystr.lower text)
            Escalation.SECURITY_TERMS = []))
    ∧ (∀ needle : String,
        (needle ∈ Escalation.contains_any (Pystr.lower text)
            Escalation.CODE_MARKERS →
          ∃ r ∈ (Escalation.detect_escalation text).reasons,
            Pystr.substr needle r = true)
        ∧ (needle ∈ Escalation.contains_any (Pystr.lower text)
            Escalation.WORKFLOW_TERMS →
          ∃ r ∈ (Escalation.detect_escalation text).reasons,
            Pystr.substr needle r = true)
        ∧ (needle ∈ Escalation.contains_any (Pystr.lower text)
            Escalation.ARCHITECTURE_TERMS →
          ∃ r ∈ (Escalation.detect_escalation text).reasons,
            Pystr.substr needle r = true)
        ∧ (needle ∈ Escalation.contains_any (Pystr.lower text)
            Escalation.SECURITY_TERMS →
          ∃ r ∈ (Escalation.detect_escalation text).reasons,
            Pystr.substr needle r = true)) := by
  constructor
  · have hnil := Escalation.detect_escalation_reasons_nil_iff text
    have htrig : (Escalation.detect_escalation text).triggered =
        !(Escalation.detect_escalation text).reasons.isEmpty := by
      simp [Escalation.detect_escalation]
    rw [htrig]
    rw [← hnil]
    cases hr : (Escalation.detect_escalation text).reasons <;> simp
  · intro needle
    refine ⟨?_, ?_, ?_, ?_⟩
    · intro hmem
      have hne : Escalation.contains_any (Pystr.lower text)
          Escalation.CODE_MARKERS ≠ [] := List.ne_nil_of_mem hmem
      refine ⟨"code markers: " ++ Pystr.joinSep ", "
        (Escalation.contains_any (Pystr.lower text) Escalation.CODE_MARKERS),
        ?_, ?_⟩
      · simp [Escalation.detect_escalation, hne]
      · exact Pystr.substr_append_right _ _ _
          (Pystr.joinSep_mem_infix ", " _ needle hmem)
    · intro hmem
      have hne : Escalation.contains_any (Pystr.lower text)
          Escalation.WORKFLOW_TERMS ≠ [] := List.ne_nil_of_mem hmem
      refine ⟨"workflow: " ++ Pystr.joinSep ", "
        (Escalation.contains_any (Pystr.lower text) Escalation.WORKFLOW_TERMS),
        ?_, ?_⟩
      · simp [Escalation.detect_escalation, hne]
      · exact Pystr.substr_append_right _ _ _
          (Pystr.joinSep_mem_infix ", " _ needle hmem)
    · intro hmem
      have hne : Escalation.contains_any (Pystr.lower text)
          Escalation.ARCHITECTURE_TERMS ≠ [] := List.ne_nil_of_mem hmem
      refine ⟨"architecture: " ++ Pystr.joinSep ", "
        (Escalation.contains_any (Pystr.lower text)
          Escalation.ARCHITECTURE_TERMS), ?_, ?_⟩
      · simp [Escalation.detect_escalation, hne]
      · exact Pystr.substr_append_right _ _ _
          (Pystr.joinSep_mem_infix ", " _ needle hmem)
    · intro hmem
      have hne : Escalation.contains_any (Pystr.lower text)
          Escalation.SECURITY_TERMS ≠ [] := List.ne_nil_of_mem hmem
      refine ⟨"security: " ++ Pystr.joinSep ", "
        (Escalation.contains_any (Pystr.lower text) Escalation.SECURITY_TERMS),
        ?_, ?_⟩
      · simp [Escalation.detect_escalation, hne]
      · exact Pystr.substr_append_right _ _ _
          (Pystr.joinSep_mem_infix ", " _ needle hmem)

/-- C8 counterexample: a 400-character text (at the length threshold)
containing no marker term does not trigger escalation, refuting the
claim that any text at or above the threshold triggers it. -/
theorem detect_escalation_length_alone_counterexample :
    Escalation.LONG_REQUEST_THRESHOLD ≤
      (String.mk (List.replicate 400 'z')).length
    ∧ (Escalation.detect_escalation
        (String.mk (List.replicate 400 'z'))).triggered = false := by
  constructor
  · decide
  · decide

/-- Closed instantiation of `detect_escalation_marker_iff`: the marker
terms "fix" and "docker" trigger escalation for a short request and both
occur in the recorded reasons. -/
theorem detect_escalation_marker_iff_witness :
    (Escalation.detect_escalation "please fix the docker build").triggered = true
    ∧ (∃ r ∈ (Escalation.detect_escalation "please fix the docker build").reasons,
        Pystr.substr "docker" r = true)
    ∧ (∃ r ∈ (Escalation.detect_escalation "please fix the docker build").reasons,
        Pystr.substr "fix" r = true) := by
  refine ⟨?_, ?_, ?_⟩
  · exact (detect_escalation_marker_iff "please fix the docker build").1.mpr
      (by decide)
  · exact ((detect_escalation_marker_iff "please fix the docker build").2
      "docker").1 (by decide)
  · exact (((detect_escalation_marker_iff "please fix the docker build").2
      "fix").2.1) (by decide)

/-! ## Router: claims C2 and C9 -/

/-- C2: `route` (a total function of its inputs — the embedding has no
failure path) always picks a layer among keyword / ollama / openai /
fallback, and when the text matches no keyword command and both model
layers are unavailable (health snapshot or breaker) the layer is
fallback. -/
theorem router_route_layer_total
    (config : Router.LobbyConfig) (registry : Router.KeywordRegistry)
    (breakers : CircuitBreaker.BreakerStore) (now : Int)
    (request : Router.RequestEnvelope) (snapshot : Router.HealthSnapshot)
    (latency_ms : ℚ) (latency_per_layer : Option (List (String × ℚ))) :
    ((Router.route config registry breakers now request snapshot latency_ms
        latency_per_layer).record.layer = "keyword"
     ∨ (Router.route config registry breakers now request snapshot latency_ms
        latency_per_layer).record.layer = "ollama"
     ∨ (Router.route config registry breakers now request snapshot latency_ms
        latency_per_layer).record.layer = "openai"
     ∨ (Router.route config registry breakers now request snapshot latency_ms
        latency_per_layer).record.layer = "fallback")
    ∧ (Router.kw_match registry (Pystr.strip request.text) = none →
       Router.layer_available breakers now "ollama" snapshot = false →
       Router.layer_available breakers now "openai" snapshot = false →
       (Router.route config registry breakers now request snapshot latency_ms
         latency_per_layer).record.layer = "fallback") := by
  constructor
  · simp only [Router.route]
    split
    · simp
    · repeat' split
      all_goals simp
  · intro hkw holl hope
    simp only [Router.route, hkw]
    simp [holl, hope]

/-- Closed instantiation of `router_route_layer_total`: no keyword match
and both layers down routes to fallback. -/
theorem router_route_layer_total_witness :
    (Router.route sample_config empty_registry CircuitBreaker.emptyStore 1000
      sample_request_normal snap_all_down 0 none).record.layer = "fallback" :=
  (router_route_layer_total sample_config empty_registry
    CircuitBreaker.emptyStore 1000 sample_request_normal snap_all_down 0
    none).2 rfl rfl rfl

/-- C9 (amended): a non-keyword high-priority request routed while the
local-model layer is unavailable, the cloud layer available and
escalation untriggered does choose the cloud layer, but the decision
record's reason is the fixed string "ollama unavailable, openai
escalation" — the priority override enables the route without being
referenced in the reason. -/
theorem router_priority_override_uses_openai
    (config : Router.LobbyConfig) (registry : Router.KeywordRegistry)
    (breakers : CircuitBreaker.BreakerStore) (now : Int)
    (request : Router.RequestEnvelope) (snapshot : Router.HealthSnapshot)
    (latency_ms : ℚ) (latency_per_layer : Option (List (String × ℚ)))
    (hkw : Router.kw_match registry (Pystr.strip request.text) = none)
    (hpri : request.priority = "high")
    (hesc : (Escalation.detect_escalation
      (Pystr.strip request.text)).triggered = false)
    (holl : Router.layer_available breakers now "ollama" snapshot = false)
    (hope : Router.layer_available breakers now "openai" snapshot = true) :
    (Router.route config registry breakers now request snapshot latency_ms
      latency_per_layer).record.layer = "openai"
    ∧ (Router.route config registry breakers now request snapshot latency_ms
        latency_per_layer).record.reason =
      "ollama unavailable, openai escalation" := by
  simp only [Router.route, hkw]
  simp [holl, hope, hpri]

/-- C9 counterexample: a concrete scenario inside the claim's scope
(no keyword hit, priority high, ollama down, openai healthy, escalation
untriggered) where the layer is openai but the recorded reason is
"ollama unavailable, openai escalation" and does not mention the
priority override at all. -/
theorem router_priority_reason_counterexample :
    Router.kw_match empty_registry (Pystr.strip sample_request_high.text) = none
    ∧ sample_request_high.priority = "high"
    ∧ Router.layer_available CircuitBreaker.emptyStore 1000 "ollama"
        snap_ollama_down = false
    ∧ Router.layer_available CircuitBreaker.emptyStore 1000 "openai"
        snap_ollama_down = true
    ∧ (Escalation.detect_escalation
        (Pystr.strip sample_request_high.text)).triggered = false
    ∧ (Router.route sample_config empty_registry CircuitBreaker.emptyStore
        1000 sample_request_high snap_ollama_down 0 none).record.layer =
      "openai"
    ∧ (Router.route sample_config empty_registry CircuitBreaker.emptyStore
        1000 sample_request_high snap_ollama_down 0 none).record.reason =
      "ollama unavailable, openai escalation"
    ∧ Pystr.substr "priority"
        (Router.route sample_config empty_registry CircuitBreaker.emptyStore
          1000 sample_request_high snap_ollama_down 0 none).record.reason =
      false := by
  refine ⟨rfl, rfl, by decide, by decide, by decide, ?_, ?_, ?_⟩
  · decide
  · decide
  · decide

/-- Closed instantiation of `router_priority_override_uses_openai`. -/
theorem router_priority_override_uses_openai_witness :
    (Router.route sample_config empty_registry CircuitBreaker.emptyStore 1000
      sample_request_high snap_ollama_down 0 none).record.layer = "openai" :=
  (router_priority_override_uses_openai sample_config empty_registry
    CircuitBreaker.emptyStore 1000 sample_request_high snap_ollama_down 0 none
    rfl rfl (by decide) (by decide) (by decide)).1

/-! ## Cache: claims C3 and C7 -/

/-- C3 (amended): key derivation is deterministic — a fixed triple always
yields the identical key — and the key is a function of the serialized
string `intent:project-or-global:stateSignature` alone, so any two
triples whose serializations coincide receive the same key; key
inequality for differing triples therefore does not hold in general. -/
theorem cache_key_deterministic_data_dependent
    (digest : String → String) (intent intent2 : String)
    (project project2 : Option String) (sig sig2 : String)
    (hdata : Cache.cache_key_data intent project sig =
      Cache.cache_key_data intent2 project2 sig2) :
    Cache.make_cache_key digest intent project sig =
      Cache.make_cache_key digest intent project sig
    ∧ Cache.make_cache_key digest intent project sig =
      Cache.make_cache_key digest intent2 project2 sig2 :=
  ⟨rfl, by simp [Cache.make_cache_key, hdata]⟩

/-- C3 counterexample: the distinct triples
`("status_check", "global", "abc123")` and `("status_check", None,
"abc123")` serialize to the same string, hence get the same cache key
(for any digest, in particular the truncated SHA-256 of the source). -/
theorem cache_key_not_injective_counterexample :
    (some "global" : Option String) ≠ none
    ∧ Cache.cache_key_data "status_check" (some "global") "abc123" =
      Cache.cache_key_data "status_check" none "abc123"
    ∧ Cache.make_cache_key Cache.exampleDigest "status_check" (some "global")
        "abc123" =
      Cache.make_cache_key Cache.exampleDigest "status_check" none "abc123" :=
  ⟨by decide, rfl, rfl⟩

/-- Closed instantiation of `cache_key_deterministic_data_dependent`:
determinism at a fixed triple, and the collision between a `None`
project and an empty-string project. -/
theorem cache_key_deterministic_data_dependent_witness :
    Cache.make_cache_key Cache.exampleDigest "how_to" (some "betapp") "s1" =
      Cache.make_cache_key Cache.exampleDigest "how_to" (some "betapp") "s1"
    ∧ Cache.make_cache_key Cache.exampleDigest "how_to" none "s1" =
      Cache.make_cache_key Cache.exampleDigest "how_to" (some "") "s1" :=
  ⟨(cache_key_deterministic_data_dependent Cache.exampleDigest "how_to"
      "how_to" (some "betapp") (some "betapp") "s1" "s1" rfl).1,
   (cache_key_deterministic_data_dependent Cache.exampleDigest "how_to"
      "how_to" none (some "") "s1" "s1" rfl).2⟩

/-- C7: `put` for an intent whose TTL-table entry is null returns no key
and leaves the whole cache state (entries and counters) unchanged, and a
subsequent `get` for the same triple (which had no live entry — null-TTL
intents are never written) is a miss. -/
theorem cache_put_null_ttl_noop
    (digest : String → String) (st : Cache.CacheState) (intent : String)
    (project : Option String) (sig response tier : String) (tokens_saved : Nat)
    (now : Int)
    (httl : Cache.ttl_lookup intent = none)
    (hmiss : Cache.live_lookup st.entries
      (Cache.make_cache_key digest intent project sig) now = none) :
    Cache.put digest st intent response project sig tokens_saved tier now =
      (none, st)
    ∧ (Cache.get digest st intent project sig now).1 = none := by
  constructor
  · simp [Cache.put, httl]
  · simp [Cache.get, hmiss]

/-- Closed instantiation of `cache_put_null_ttl_noop` for the uncacheable
intent "debugging" on a fresh cache. -/
theorem cache_put_null_ttl_noop_witness :
    Cache.put Cache.exampleDigest Cache.emptyCache "debugging" "resp"
      (some "betapp") "sig" 10 "exact_match" 1000 =
      (none, Cache.emptyCache)
    ∧ (Cache.get Cache.exampleDigest Cache.emptyCache "debugging"
        (some "betapp") "sig" 1000).1 = none :=
  cache_put_null_ttl_noop Cache.exampleDigest Cache.emptyCache "debugging"
    (some "betapp") "sig" "resp" "exact_match" 10 1000 (by decide) rfl

/-! ## Gateway: claim C1 -/

namespace Gateway

theorem truthy_some_ne_empty (o : Option String) (r : String)
    (h : truthy o = some r) : r ≠ "" := by
  cases o with
  | none => simp [truthy] at h
  | some s =>
    by_cases hs : s = ""
    · simp [truthy, hs] at h
    · simp [truthy, hs] at h
      subst h
      exact hs

theorem ite_truthy_some_ne_empty (c : Prop) [Decidable c]
    (o : Option String) (r : String)
    (h : (if c then truthy o else none) = some r) : r ≠ "" := by
  split at h
  · exact truthy_some_ne_empty o r h
  · simp at h

theorem handle_trivial_ne_empty (message : String) :
    handle_trivial message ≠ "" := by
  simp only [handle_trivial]
  split
  · rename_i kv hfind
    have hmem := List.mem_of_find?_eq_some hfind
    have hall : ∀ p ∈ TRIVIAL_RESPONSES, p.2 ≠ "" := by decide
    exact hall kv hmem
  · decide

end Gateway

/-- C1: `handle_message` returns a non-empty string for every user id,
every input text and every combination of backend outcomes (calls that
succeed, fail, or return empty/whitespace content, liveness flags,
tracker states, and even an unexpected exception caught by the
defensive envelope); the embedding is a total function, so no code path
raises. -/
theorem gateway_handle_message_nonempty (user_id message : String)
    (env : Gateway.GatewayEnv) :
    Gateway.handle_message user_id message env ≠ "" := by
  simp only [Gateway.handle_message]
  split
  · decide
  · split
    · decide
    · split
      · exact Gateway.handle_trivial_ne_empty message
      · split
        · rename_i r hr
          exact Gateway.ite_truthy_some_ne_empty _ _ r hr
        · split
          · rename_i r hr
            exact Gateway.truthy_some_ne_empty _ r hr
          · split
            · rename_i r hr
              exact Gateway.truthy_some_ne_empty _ r hr
            · decide
